import Mathlib

/-!
Verification development for oslo.concurrency (lockutils.py, processutils.py).

The Python source is shallowly embedded: pure helpers become Lean functions,
the side-effectful lock context manager and the retrying process executor
become functions producing an explicit event trace together with their
outcome.  External collaborators of the repository (the fasteners file lock,
oslo_utils.strutils.mask_password, os.fsdecode, shlex.split, the actual OS
process) are abstracted as parameters or as an oracle describing each
attempt's outcome, exactly at the boundary where the source calls them.
-/

deriving instance DecidableEq for Except

namespace OsloConcurrency

/-- Python str.replace for a one-character pattern and a one-character
replacement: map over the characters.  (All the replacements the source
performs are of this shape: os.sep is a single character.) -/
def replaceChar (sep repl : Char) (s : String) : String :=
  String.mk (s.data.map (fun ch => if ch = sep then repl else ch))

/-- Python str.endswith for a one-character suffix: the last character is c
(false on the empty string, as in Python). -/
def lastCharIs (c : Char) (s : String) : Bool :=
  s.data.getLast? = some c

/-- Python str.startswith for a one-character prefix: the first character is
c (false on the empty string, as in Python). -/
def firstCharIs (c : Char) (s : String) : Bool :=
  s.data.head? = some c

/-! ## lockutils.py -/

/-- POSIX path separator, the value of os.sep on the platforms the library
targets. -/
def os_sep : Char := '/'

/-- Embedding of Python posixpath.join for two components:
if the second part is absolute it wins; otherwise a separator is inserted
unless the first part is empty or already ends with one. -/
def os_path_join (a b : String) : String :=
  if firstCharIs os_sep b then b
  else if a = "" ∨ lastCharIs os_sep a then a ++ b
  else a ++ "/" ++ b

/-- Configuration values read by lockutils from oslo.config:
`lock_path` (empty string models an unset option, matching Python falsiness)
and `disable_process_locking`. -/
structure LockConf where
  lock_path : String
  disable_process_locking : Bool
deriving DecidableEq, Repr

/-- Errors raised by the lockutils code that we embed. -/
inductive LockErr
  | requiredOptError
deriving DecidableEq, Repr

/-- Embedding of lockutils._get_lock_path.  `lock_file_pfx` and `lock_path`
use the empty string for Python None (both are tested only for truthiness in
the source).  The name has every os.sep replaced by an underscore; a truthy
prefix is prepended, with a hyphen inserted unless the prefix already ends in
one; the effective directory is the argument if truthy, else the configured
one; an untruthy effective directory raises cfg.RequiredOptError. -/
def get_lock_path (name lock_file_pfx lock_path : String) (conf : LockConf) :
    Except LockErr String :=
  let name1 := replaceChar os_sep '_' name
  let name2 :=
    if lock_file_pfx ≠ "" then
      let sep := if lastCharIs '-' lock_file_pfx then "" else "-"
      lock_file_pfx ++ sep ++ name1
    else name1
  let local_lock_path := if lock_path ≠ "" then lock_path else conf.lock_path
  if local_lock_path = "" then Except.error LockErr.requiredOptError
  else Except.ok (os_path_join local_lock_path name2)

/-- Observable events of one run of the lockutils.lock context manager. -/
inductive LockEvent
  | acqInternal (name : String)
  | relInternal (name : String)
  | acqExternal (path : String)
  | relExternal (path : String)
  | body
deriving DecidableEq, Repr

/-- How one run of the lockutils.lock context manager ends. -/
inductive LockOutcome
  | ok
  | bodyRaised
  | configError
deriving DecidableEq, Repr

/-- Embedding of the lockutils.lock context manager (one complete run around
a critical section).  The source first enters `with int_lock:` (acquiring the
per-name semaphore), then, if `external` is set and process locking is not
disabled, derives the lock path (which may raise RequiredOptError), acquires
the file lock, runs the body under `try/finally: ext_lock.release()`, and the
`with` statement releases the internal semaphore on every exit path.
`bodyRaises` says whether the critical section raises. -/
def lockRun (name lock_file_pfx : String) (external : Bool)
    (lock_path : String) (conf : LockConf) (bodyRaises : Bool) :
    List LockEvent × LockOutcome :=
  if external ∧ ¬conf.disable_process_locking then
    match get_lock_path name lock_file_pfx lock_path conf with
    | Except.error _ =>
        ([LockEvent.acqInternal name, LockEvent.relInternal name],
         LockOutcome.configError)
    | Except.ok path =>
        ([LockEvent.acqInternal name, LockEvent.acqExternal path,
          LockEvent.body, LockEvent.relExternal path,
          LockEvent.relInternal name],
         if bodyRaises then LockOutcome.bodyRaised else LockOutcome.ok)
  else
    ([LockEvent.acqInternal name, LockEvent.body, LockEvent.relInternal name],
     if bodyRaises then LockOutcome.bodyRaised else LockOutcome.ok)

/-! ## processutils.py -/

/-- processutils.LOG_ALL_ERRORS. -/
def LOG_ALL_ERRORS : Int := 1

/-- processutils.LOG_FINAL_ERROR. -/
def LOG_FINAL_ERROR : Int := 2

/-- The check_exit_code keyword argument: a bool, a single int, or a list of
ints (the source default is the list [0]). -/
inductive CheckExitCode
  | bool (b : Bool)
  | int (n : Int)
  | list (l : List Int)
deriving DecidableEq, Repr

/-- The keyword arguments of processutils.execute with the source defaults.
`extra_kwargs` holds the names of any unrecognized keyword arguments left in
the kwargs dict after the known ones are popped.  The on_execute /
on_completion callbacks and the per-attempt OS interaction are abstracted in
`AttemptResult`. -/
structure ExecOptions where
  cwd : Option String := none
  process_input : Option String := none
  env_variables : Option (List (String × String)) := none
  check_exit_code : CheckExitCode := CheckExitCode.list [0]
  delay_on_retry : Bool := true
  attempts : Nat := 1
  run_as_root : Bool := false
  root_helper : String := ""
  shell : Bool := false
  log_errors : Option Int := none
  binary : Bool := false
  extra_kwargs : List String := []
deriving Repr

/-- Data carried by processutils.ProcessExecutionError. -/
structure PEEData where
  exit_code : Option Int := none
  stdout : String := ""
  stderr : String := ""
  cmd : String := ""
  description : Option String := none
deriving DecidableEq, Repr

/-- Python repr of a text string; faithful for strings containing no quote,
backslash or non-printable character, which is all this development ever
passes to it. -/
def pyReprStr (s : String) : String := "'" ++ s ++ "'"

/-- The message built by ProcessExecutionError.__init__ (what str(exn)
returns): the description (defaulted when absent), the command line, the exit
code ('-' when absent), and the repr of stdout and stderr. -/
def PEEData.message (e : PEEData) : String :=
  let description :=
    match e.description with
    | some d => d
    | none => "Unexpected error while running command."
  let exit_code :=
    match e.exit_code with
    | some n => toString n
    | none => "-"
  description ++ "\nCommand: " ++ e.cmd ++ "\nExit code: " ++ exit_code ++
    "\nStdout: " ++ pyReprStr e.stdout ++ "\nStderr: " ++ pyReprStr e.stderr

/-- Outcome of one attempt of the body of execute's retry loop, up to (but
not including) the exit-code check: the process ran to completion with the
given return code and raw stdout/stderr bytes and both callbacks returned
normally; or an OSError was raised while spawning or communicating; or some
exception that is neither ProcessExecutionError nor OSError was raised (for
example by the caller-supplied on_execute or on_completion callback). -/
inductive AttemptResult
  | ok (rc : Int) (stdout stderr : String)
  | osError (errno : Int)
  | otherError
deriving DecidableEq, Repr

/-- What a call to processutils.execute does, as seen by its caller. -/
inductive ExecResult
  | success (stdout stderr : String)
  | procError (e : PEEData)
  | osError (errno : Int)
  | unknownArg
  | invalidArg
  | noRootWrap
  | pyError
  | otherError
  | noAttempts
deriving DecidableEq, Repr

/-- Observable events of the retry loop: one spawn (Popen call or attempted
Popen call) per loop iteration, and one logErr each time the except-clause
logs the failure under the log_errors policy. -/
inductive ExecEvent
  | spawn
  | logErr
deriving DecidableEq, Repr

/-- External collaborators of processutils.execute, abstracted at the exact
call boundary: strutils.mask_password, os.fsdecode (a total locale decode of
raw bytes that never fails), shlex.split, os.geteuid(), and the oracle
giving the outcome of each successive attempt. -/
structure ExecCtx where
  mask : String → String
  fsdecode : String → String
  shlex_split : String → List String
  euid : Int
  world : Nat → AttemptResult

/-- Embedding of the check_exit_code normalization at the top of execute:
a bool b sets ignore_exit_code to (not b) and the accepted list to [0]; an
int n becomes the list [n]; a list stays itself (ignore_exit_code stays
false). Returns (ignore_exit_code, check_exit_code). -/
def normalizeCheckExit : CheckExitCode → Bool × List Int
  | CheckExitCode.bool b => (!b, [0])
  | CheckExitCode.int n => (false, [n])
  | CheckExitCode.list l => (false, l)

/-- Embedding of execute's run_as_root handling: when root is requested and
the effective uid is non-zero, an empty root_helper raises
NoRootWrapSpecified; with shell the helper is space-joined onto the first
command element (IndexError on an empty command vector, modeled as pyError);
without shell the helper is shlex-tokenized and prepended. -/
def rootWrap (ctx : ExecCtx) (opts : ExecOptions) (cmd : List String) :
    Except ExecResult (List String) :=
  if opts.run_as_root ∧ ctx.euid ≠ 0 then
    if opts.root_helper = "" then Except.error ExecResult.noRootWrap
    else if opts.shell then
      match cmd with
      | c0 :: rest => Except.ok ((opts.root_helper ++ " " ++ c0) :: rest)
      | [] => Except.error ExecResult.pyError
    else Except.ok (ctx.shlex_split opts.root_helper ++ cmd)
  else Except.ok cmd

/-- The values execute's loop body needs, resolved before the loop. -/
structure LoopParams where
  ignore_exit_code : Bool
  check_exit_code : List Int
  binary : Bool
  log_errors : Option Int
  sanitized_cmd : String

/-- Whether the except-clause logs this failure: log_errors == LOG_ALL_ERRORS,
or log_errors == LOG_FINAL_ERROR and no attempts remain (the source tests
`not attempts` after the decrement). -/
def logsThisError (log_errors : Option Int) (remaining : Nat) : Bool :=
  log_errors = some LOG_ALL_ERRORS ∨
    (log_errors = some LOG_FINAL_ERROR ∧ remaining = 0)

/-- Embedding of execute's retry loop (`while attempts > 0`), structurally
recursive on the remaining attempt count; `idx` numbers the attempts so the
oracle can give each one its own outcome.  An exhausted loop falls through
(the Python function then returns None, modeled as noAttempts).  In each
iteration: an exception outside (ProcessExecutionError, OSError) propagates
at once; a caught failure is logged according to the log_errors policy, then
either re-raised (no attempts left) or retried; a completed process whose
return code passes the exit-code check returns its output, decoded unless
binary; one that fails the check raises a ProcessExecutionError carrying
masked output and the sanitized command line. -/
def executeLoop (p : LoopParams) (ctx : ExecCtx) (attempts idx : Nat) :
    ExecResult × List ExecEvent :=
  match attempts with
  | 0 => (ExecResult.noAttempts, [])
  | a + 1 =>
    match ctx.world idx with
    | AttemptResult.otherError => (ExecResult.otherError, [ExecEvent.spawn])
    | AttemptResult.osError e =>
        let evs := ExecEvent.spawn ::
          (if logsThisError p.log_errors a then [ExecEvent.logErr] else [])
        if a = 0 then (ExecResult.osError e, evs)
        else
          let r := executeLoop p ctx a (idx + 1)
          (r.1, evs ++ r.2)
    | AttemptResult.ok rc out err =>
        if ¬p.ignore_exit_code ∧ rc ∉ p.check_exit_code then
          let pee : PEEData :=
            { exit_code := some rc,
              stdout := ctx.mask (ctx.fsdecode out),
              stderr := ctx.mask (ctx.fsdecode err),
              cmd := p.sanitized_cmd }
          let evs := ExecEvent.spawn ::
            (if logsThisError p.log_errors a then [ExecEvent.logErr] else [])
          if a = 0 then (ExecResult.procError pee, evs)
          else
            let r := executeLoop p ctx a (idx + 1)
            (r.1, evs ++ r.2)
        else
          if ¬p.binary then
            (ExecResult.success (ctx.fsdecode out) (ctx.fsdecode err),
             [ExecEvent.spawn])
          else (ExecResult.success out err, [ExecEvent.spawn])

/-- The log_errors values the source accepts: None, LOG_ALL_ERRORS or
LOG_FINAL_ERROR (the membership test at processutils.py line 194). -/
def validLog (l : Option Int) : Prop :=
  l = none ∨ l = some LOG_ALL_ERRORS ∨ l = some LOG_FINAL_ERROR

instance (l : Option Int) : Decidable (validLog l) := by
  unfold validLog; infer_instance

/-- The loop parameters execute resolves before entering the retry loop,
for the (post-rootWrap) command vector `cmd`: the normalized exit-code
policy, the binary flag, the log_errors policy and the sanitized
(password-masked, space-joined) command line. -/
def loopParamsOf (ctx : ExecCtx) (cmd : List String) (opts : ExecOptions) :
    LoopParams :=
  { ignore_exit_code := (normalizeCheckExit opts.check_exit_code).1,
    check_exit_code := (normalizeCheckExit opts.check_exit_code).2,
    binary := opts.binary, log_errors := opts.log_errors,
    sanitized_cmd := ctx.mask (String.intercalate " " cmd) }

/-- Embedding of processutils.execute: normalize check_exit_code, reject
unknown keyword arguments, reject an invalid log_errors value, apply the
run_as_root wrapping, compute the sanitized command line, then run the retry
loop.  The event list records every spawn and every error logged. -/
def execute (ctx : ExecCtx) (cmd : List String) (opts : ExecOptions) :
    ExecResult × List ExecEvent :=
  if opts.extra_kwargs ≠ [] then (ExecResult.unknownArg, [])
  else if ¬validLog opts.log_errors then (ExecResult.invalidArg, [])
  else
    match rootWrap ctx opts cmd with
    | Except.error e => (e, [])
    | Except.ok cmd1 =>
        executeLoop (loopParamsOf ctx cmd1 opts) ctx opts.attempts 0

/-- Embedding of processutils.trycmd: call execute; a ProcessExecutionError
becomes the pair ("", str(exn)); on success, if discard_warnings is set and
stderr is non-empty, stderr is cleared; any other exception propagates. -/
def trycmd (ctx : ExecCtx) (cmd : List String) (opts : ExecOptions)
    (discard_warnings : Bool) : Except ExecResult (String × String) :=
  match (execute ctx cmd opts).1 with
  | ExecResult.success out err =>
      if discard_warnings ∧ err ≠ "" then Except.ok (out, "")
      else Except.ok (out, err)
  | ExecResult.procError e => Except.ok ("", e.message)
  | r => Except.error r

/-- Number of spawn events in a trace. -/
def spawnCount (evs : List ExecEvent) : Nat :=
  (evs.filter (fun e => e = ExecEvent.spawn)).length

/-- Number of error-logging events in a trace. -/
def logErrCount (evs : List ExecEvent) : Nat :=
  (evs.filter (fun e => e = ExecEvent.logErr)).length

/-! ## Spec-side definitions (stated from the claims' words, to be compared
with the embedded code) -/

/-- The prefix part of the lock-file name as claim C2 words it: empty when no
prefix is given, the prefix itself when it ends in a hyphen, and the prefix
followed by a single hyphen otherwise. -/
def pfxPart (p : String) : String :=
  if p = "" then "" else if lastCharIs '-' p then p else p ++ "-"

/-- The accepted exit-code set as claim C3 words it: boolean true accepts
only 0, boolean false accepts everything, a single integer accepts exactly
itself, a list accepts exactly its elements (the absent-option default,
the list [0], accepts only 0). -/
def specAccepts : CheckExitCode → Int → Bool
  | CheckExitCode.bool true, rc => rc = 0
  | CheckExitCode.bool false, _ => true
  | CheckExitCode.int n, rc => rc = n
  | CheckExitCode.list l, rc => l.contains rc

/-- A catchable failed attempt, as the retry loop sees it: an OSError, or a
completed process whose return code fails the exit-code check. -/
def attemptFails (p : LoopParams) : AttemptResult → Bool
  | AttemptResult.osError _ => true
  | AttemptResult.otherError => false
  | AttemptResult.ok rc _ _ =>
      ¬p.ignore_exit_code ∧ rc ∉ p.check_exit_code

/-- The result the loop propagates when its last attempt fails with the given
outcome (otherError never reaches this point for a failing attempt). -/
def failResult (p : LoopParams) (ctx : ExecCtx) : AttemptResult → ExecResult
  | AttemptResult.osError e => ExecResult.osError e
  | AttemptResult.otherError => ExecResult.otherError
  | AttemptResult.ok rc out err =>
      ExecResult.procError
        { exit_code := some rc,
          stdout := ctx.mask (ctx.fsdecode out),
          stderr := ctx.mask (ctx.fsdecode err),
          cmd := p.sanitized_cmd }

/-- The result of a successful attempt: the raw byte strings when binary is
set, the (unmasked) locale-decoded text otherwise. -/
def okResult (p : LoopParams) (ctx : ExecCtx) (out err : String) : ExecResult :=
  if ¬p.binary then
    ExecResult.success (ctx.fsdecode out) (ctx.fsdecode err)
  else ExecResult.success out err

/-! ## Concrete fixtures used by the witnesses -/

/-- A concrete mask_password stand-in for witnesses: masks exactly the
string "pw secret". -/
def maskW : String → String :=
  fun s => if s = "pw secret" then "pw ***" else s

/-- A concrete context whose every attempt completes with exit code 0,
stdout "pw secret" and stderr "warn". -/
def ctxOk : ExecCtx :=
  { mask := maskW, fsdecode := id, shlex_split := fun s => [s],
    euid := 1000, world := fun _ => AttemptResult.ok 0 "pw secret" "warn" }

/-- A concrete context whose every attempt completes with exit code 1. -/
def ctxFail : ExecCtx :=
  { mask := maskW, fsdecode := id, shlex_split := fun s => [s],
    euid := 1000, world := fun _ => AttemptResult.ok 1 "pw secret" "e" }

/-- A concrete context whose first attempt fails with exit code 1 and whose
second attempt raises an exception that is neither ProcessExecutionError nor
OSError (as a callback would). -/
def ctxCallback : ExecCtx :=
  { mask := maskW, fsdecode := id, shlex_split := fun s => [s],
    euid := 1000,
    world := fun i =>
      if i = 0 then AttemptResult.ok 1 "" "" else AttemptResult.otherError }

/-! ## Theorems for the lockutils claims -/

/-- Claim C1 counterexample: calling lock with external=true while neither
the lock_path argument nor the configured lock_path is set does end in a
configuration error, but the in-process semaphore for the name IS acquired
before the failure is raised (the acquisition event is in the trace), which
refutes the claim that the failure is raised before the in-process semaphore
is acquired. -/
theorem C1_counterexample :
    (lockRun "mylock" "" true "" ⟨"", false⟩ false).2 =
      LockOutcome.configError ∧
    LockEvent.acqInternal "mylock" ∈
      (lockRun "mylock" "" true "" ⟨"", false⟩ false).1 := by
  decide

/-- Claim C1 (amended): for every call to lock(name, external=true) with
process locking enabled and no lock directory configured, the run fails with
a configuration error; the in-process semaphore is acquired first, the error
is raised before the external lock is acquired and before the critical
section runs, and the semaphore is released as the error propagates, so the
in-process lock is free afterward. -/
theorem C1_no_lock_dir (name pfx lp : String) (conf : LockConf)
    (bodyRaises : Bool) (hd : conf.disable_process_locking = false)
    (hlp : lp = "") (hc : conf.lock_path = "") :
    lockRun name pfx true lp conf bodyRaises =
      ([LockEvent.acqInternal name, LockEvent.relInternal name],
       LockOutcome.configError) := by
  subst hlp
  unfold lockRun get_lock_path
  simp [hd, hc]

/-- Claim C1 witness: the amended statement at a concrete input. -/
theorem C1_no_lock_dir_witness :
    lockRun "n" "p" true "" ⟨"", false⟩ true =
      ([LockEvent.acqInternal "n", LockEvent.relInternal "n"],
       LockOutcome.configError) :=
  C1_no_lock_dir "n" "p" "" ⟨"", false⟩ true rfl rfl rfl

/-- Claim C2: for every name, prefix and non-empty effective lock directory,
the derived external lock file path equals join(lockDir, prefixPart ++
sanitizedName), where sanitizedName replaces every OS path separator in the
name by an underscore, and prefixPart is empty for an empty prefix, the
prefix itself when it ends in a hyphen, and the prefix plus a single hyphen
otherwise. -/
theorem C2_lock_path_formula (name p lp : String) (conf : LockConf)
    (heff : (if lp ≠ "" then lp else conf.lock_path) ≠ "") :
    get_lock_path name p lp conf =
      Except.ok (os_path_join (if lp ≠ "" then lp else conf.lock_path)
        (pfxPart p ++ replaceChar os_sep '_' name)) := by
  unfold get_lock_path pfxPart
  simp only [ne_eq, ite_not] at heff
  by_cases hp : p = ""
  · simp [hp, heff]
  · by_cases hd : lastCharIs '-' p
    · simp [hp, hd, heff]
    · simp [hp, hd, heff, String.append_assoc]

/-- Claim C2 witness: the formula at a concrete input. -/
theorem C2_lock_path_formula_witness :
    get_lock_path "a/b" "nova" "" ⟨"/tmp", false⟩ =
      Except.ok (os_path_join
        (if ("" : String) ≠ "" then "" else "/tmp")
        (pfxPart "nova" ++ replaceChar os_sep '_' "a/b")) :=
  C2_lock_path_formula "a/b" "nova" "" ⟨"/tmp", false⟩ (by decide)

/-- Claim C9: whenever lock(name, ...) acquired both the in-process and the
external lock (external requested, process locking enabled, path derivation
succeeded), then on both exit paths of the critical section (normal return
and exception) the trace is exactly acquire-internal, acquire-external,
body, release-external, release-internal: the external lock is released
first and the in-process lock second, both releases run even when the body
raises, and the trace is balanced, so the named lock is acquirable again
after an exception propagates. -/
theorem C9_release_order (name pfx lp : String) (conf : LockConf)
    (bodyRaises : Bool) (path : String)
    (hd : conf.disable_process_locking = false)
    (hpath : get_lock_path name pfx lp conf = Except.ok path) :
    lockRun name pfx true lp conf bodyRaises =
      ([LockEvent.acqInternal name, LockEvent.acqExternal path,
        LockEvent.body, LockEvent.relExternal path,
        LockEvent.relInternal name],
       if bodyRaises then LockOutcome.bodyRaised else LockOutcome.ok) := by
  unfold lockRun
  simp [hd, hpath]

/-- Claim C9 witness: the release order at a concrete input whose critical
section raises. -/
theorem C9_release_order_witness :
    lockRun "n" "" true "/tmp" ⟨"", false⟩ true =
      ([LockEvent.acqInternal "n", LockEvent.acqExternal "/tmp/n",
        LockEvent.body, LockEvent.relExternal "/tmp/n",
        LockEvent.relInternal "n"], LockOutcome.bodyRaised) := by
  have h := C9_release_order "n" "" "/tmp" ⟨"", false⟩ true "/tmp/n"
    rfl (by decide)
  simpa using h

/-! ## Helper lemmas about the retry loop -/

theorem attemptFails_ok_iff (p : LoopParams) (rc : Int) (out err : String) :
    attemptFails p (AttemptResult.ok rc out err) = true ↔
      (¬p.ignore_exit_code ∧ rc ∉ p.check_exit_code) := by
  simp [attemptFails]

theorem spawnCount_append (xs ys : List ExecEvent) :
    spawnCount (xs ++ ys) = spawnCount xs + spawnCount ys := by
  simp [spawnCount]

theorem logErrCount_append (xs ys : List ExecEvent) :
    logErrCount (xs ++ ys) = logErrCount xs + logErrCount ys := by
  simp [logErrCount]

theorem spawnCount_attempt (b : Bool) :
    spawnCount (ExecEvent.spawn ::
      (if b then [ExecEvent.logErr] else [])) = 1 := by
  cases b <;> simp [spawnCount]

theorem logErrCount_attempt (b : Bool) :
    logErrCount (ExecEvent.spawn ::
      (if b then [ExecEvent.logErr] else [])) = if b then 1 else 0 := by
  cases b <;> simp [logErrCount]

theorem logsThisError_mid (l : Option Int) (a : Nat) (ha : a ≠ 0) :
    logsThisError l a = decide (l = some LOG_ALL_ERRORS) := by
  simp [logsThisError, ha]

/-- A failed attempt with retries remaining: the loop recurses, prepending
this attempt's spawn event and, per policy, a log event. -/
theorem executeLoop_fail_step (p : LoopParams) (ctx : ExecCtx) (a idx : Nat)
    (hf : attemptFails p (ctx.world idx) = true) (ha : a ≠ 0) :
    executeLoop p ctx (a + 1) idx =
      ((executeLoop p ctx a (idx + 1)).1,
       (ExecEvent.spawn ::
          (if logsThisError p.log_errors a then [ExecEvent.logErr] else [])) ++
         (executeLoop p ctx a (idx + 1)).2) := by
  cases hw : ctx.world idx with
  | otherError => rw [hw] at hf; simp [attemptFails] at hf
  | osError e =>
      simp only [executeLoop]
      rw [hw]
      simp [ha]
  | ok rc out err =>
      rw [hw] at hf
      rw [attemptFails_ok_iff] at hf
      simp only [executeLoop]
      rw [hw]
      simp only [if_pos hf, if_neg ha]

/-- A failed attempt with no retries remaining: the loop propagates the
failure. -/
theorem executeLoop_fail_last (p : LoopParams) (ctx : ExecCtx) (idx : Nat)
    (hf : attemptFails p (ctx.world idx) = true) :
    executeLoop p ctx 1 idx =
      (failResult p ctx (ctx.world idx),
       ExecEvent.spawn ::
         (if logsThisError p.log_errors 0 then [ExecEvent.logErr] else [])) := by
  cases hw : ctx.world idx with
  | otherError => rw [hw] at hf; simp [attemptFails] at hf
  | osError e =>
      simp only [executeLoop]
      rw [hw]
      simp [failResult]
  | ok rc out err =>
      rw [hw] at hf
      rw [attemptFails_ok_iff] at hf
      simp only [executeLoop]
      rw [hw]
      simp only [if_pos hf]
      simp [failResult]

/-- A passing attempt returns at once with this attempt's output. -/
theorem executeLoop_pass (p : LoopParams) (ctx : ExecCtx) (a idx : Nat)
    (rc : Int) (out err : String)
    (hw : ctx.world idx = AttemptResult.ok rc out err)
    (hpass : attemptFails p (ctx.world idx) = false) :
    executeLoop p ctx (a + 1) idx =
      (okResult p ctx out err, [ExecEvent.spawn]) := by
  rw [hw] at hpass
  have h : ¬(¬p.ignore_exit_code ∧ rc ∉ p.check_exit_code) := by
    simpa [attemptFails] using hpass
  simp only [executeLoop]
  rw [hw]
  simp only [if_neg h]
  by_cases hb : p.binary <;> simp [okResult, hb]

/-- An attempt raising outside (ProcessExecutionError, OSError) propagates at
once, unlogged, with no retry. -/
theorem executeLoop_other (p : LoopParams) (ctx : ExecCtx) (a idx : Nat)
    (hw : ctx.world idx = AttemptResult.otherError) :
    executeLoop p ctx (a + 1) idx =
      (ExecResult.otherError, [ExecEvent.spawn]) := by
  simp only [executeLoop]
  rw [hw]

/-- Skipping a failing run of s attempts: the loop's result is that of the
remaining attempts, and the skipped attempts contribute s spawns and, under
the LOG_ALL_ERRORS policy, s log events (LOG_FINAL_ERROR logs nothing while
attempts remain). -/
theorem executeLoop_skip_fail (p : LoopParams) (ctx : ExecCtx) :
    ∀ (s n idx : Nat), s < n →
    (∀ i, i < s → attemptFails p (ctx.world (idx + i)) = true) →
    (executeLoop p ctx n idx).1 = (executeLoop p ctx (n - s) (idx + s)).1 ∧
    spawnCount (executeLoop p ctx n idx).2 =
      s + spawnCount (executeLoop p ctx (n - s) (idx + s)).2 ∧
    logErrCount (executeLoop p ctx n idx).2 =
      (if p.log_errors = some LOG_ALL_ERRORS then s else 0) +
        logErrCount (executeLoop p ctx (n - s) (idx + s)).2 := by
  intro s
  induction s with
  | zero =>
      intro n idx _ _
      simp
  | succ s ih =>
      intro n idx hlt hf
      obtain ⟨a, rfl⟩ : ∃ a, n = a + 1 := ⟨n - 1, by omega⟩
      have ha : a ≠ 0 := by omega
      have hf0 : attemptFails p (ctx.world idx) = true := by
        have h0 := hf 0 (by omega)
        simpa using h0
      have hstep := executeLoop_fail_step p ctx a idx hf0 ha
      have hih := ih a (idx + 1) (by omega) (fun i hi => by
        have h1 := hf (i + 1) (by omega)
        have e : idx + (i + 1) = idx + 1 + i := by omega
        rw [e] at h1
        exact h1)
      have e1 : a + 1 - (s + 1) = a - s := by omega
      have e2 : idx + (s + 1) = idx + 1 + s := by omega
      rw [hstep, e1, e2]
      refine ⟨hih.1, ?_, ?_⟩
      · simp only [spawnCount_append, spawnCount_attempt]
        rw [hih.2.1]
        omega
      · simp only [logErrCount_append, logErrCount_attempt]
        rw [hih.2.2, logsThisError_mid p.log_errors a ha]
        by_cases hall : p.log_errors = some LOG_ALL_ERRORS
        all_goals simp [hall]
        all_goals omega

/-- A run of n attempts that all fail: n spawns, and the failure of the last
attempt propagates. -/
theorem executeLoop_all_fail (p : LoopParams) (ctx : ExecCtx) (n : Nat)
    (hn : 1 ≤ n)
    (hf : ∀ i, i < n → attemptFails p (ctx.world i) = true) :
    (executeLoop p ctx n 0).1 = failResult p ctx (ctx.world (n - 1)) ∧
    spawnCount (executeLoop p ctx n 0).2 = n := by
  have hskip := executeLoop_skip_fail p ctx (n - 1) n 0 (by omega)
    (fun i hi => by simpa using hf i (by omega))
  have e1 : n - (n - 1) = 1 := by omega
  have e2 : 0 + (n - 1) = n - 1 := by omega
  rw [e1, e2] at hskip
  have hlast := executeLoop_fail_last p ctx (n - 1) (hf (n - 1) (by omega))
  rw [hlast] at hskip
  refine ⟨hskip.1, ?_⟩
  rw [hskip.2.1, spawnCount_attempt]
  omega

/-- With no unknown kwargs, a valid log_errors value and run_as_root off,
execute is exactly the retry loop on the unmodified command. -/
theorem execute_valid (ctx : ExecCtx) (cmd : List String) (opts : ExecOptions)
    (hkw : opts.extra_kwargs = []) (hlog : validLog opts.log_errors)
    (hroot : opts.run_as_root = false) :
    execute ctx cmd opts =
      executeLoop (loopParamsOf ctx cmd opts) ctx opts.attempts 0 := by
  unfold execute rootWrap
  simp [hkw, hroot, hlog]

/-! ## Theorems for the processutils claims -/

/-- Claim C3: check_exit_code is normalized before spawning so that the
attempt is accepted exactly on the claimed set — boolean true accepts only 0,
boolean false accepts every code, an integer n only n, a list exactly its
elements, and the absent-option default only 0 — and a completed attempt
raises a ProcessExecutionError if and only if its exit code is not in the
accepted set (with attempts=1 and a completed attempt, the call returns the
output when accepted and raises otherwise). -/
theorem C3_exit_code_policy (ctx : ExecCtx) (cmd : List String)
    (opts : ExecOptions) (rc : Int) (out err : String)
    (hkw : opts.extra_kwargs = []) (hlog : validLog opts.log_errors)
    (hroot : opts.run_as_root = false) (hatt : opts.attempts = 1)
    (hw : ctx.world 0 = AttemptResult.ok rc out err) :
    (∀ c rcx, ((normalizeCheckExit c).1 = true ∨
        rcx ∈ (normalizeCheckExit c).2) ↔ specAccepts c rcx = true) ∧
    (∀ rcx : Int,
      specAccepts ({} : ExecOptions).check_exit_code rcx = true ↔ rcx = 0) ∧
    (specAccepts opts.check_exit_code rc = true →
      execute ctx cmd opts =
        (okResult (loopParamsOf ctx cmd opts) ctx out err,
         [ExecEvent.spawn])) ∧
    (specAccepts opts.check_exit_code rc = false →
      (execute ctx cmd opts).1 = ExecResult.procError
        { exit_code := some rc,
          stdout := ctx.mask (ctx.fsdecode out),
          stderr := ctx.mask (ctx.fsdecode err),
          cmd := (loopParamsOf ctx cmd opts).sanitized_cmd }) := by
  have hiff : ∀ c rcx, ((normalizeCheckExit c).1 = true ∨
      rcx ∈ (normalizeCheckExit c).2) ↔ specAccepts c rcx = true := by
    intro c rcx
    cases c with
    | bool b => cases b <;> simp [normalizeCheckExit, specAccepts]
    | int n => simp [normalizeCheckExit, specAccepts]
    | list l => simp [normalizeCheckExit, specAccepts]
  have hv := execute_valid ctx cmd opts hkw hlog hroot
  refine ⟨hiff, ?_, ?_, ?_⟩
  · intro rcx
    simp [specAccepts]
  · intro hacc
    have hmem := (hiff opts.check_exit_code rc).2 hacc
    have hpass :
        attemptFails (loopParamsOf ctx cmd opts) (ctx.world 0) = false := by
      rw [hw]
      simp only [attemptFails, loopParamsOf, decide_eq_false_iff_not]
      tauto
    rw [hv, hatt]
    exact executeLoop_pass _ ctx 0 0 rc out err hw hpass
  · intro hacc
    have hmem : ¬((normalizeCheckExit opts.check_exit_code).1 = true ∨
        rc ∈ (normalizeCheckExit opts.check_exit_code).2) := by
      rw [hiff opts.check_exit_code rc, hacc]
      simp
    have hfail :
        attemptFails (loopParamsOf ctx cmd opts) (ctx.world 0) = true := by
      rw [hw]
      simp only [attemptFails, loopParamsOf, decide_eq_true_eq]
      tauto
    rw [hv, hatt]
    have hlast := executeLoop_fail_last (loopParamsOf ctx cmd opts) ctx 0 hfail
    rw [hlast, hw]
    simp [failResult]

/-- Claim C3 witness: a command completing with exit code 0 raises under
check_exit_code=[1,2] (with masked output in the error) and succeeds under
check_exit_code=0, returning its output. -/
theorem C3_exit_code_policy_witness :
    (execute ctxOk ["true"]
        { check_exit_code := CheckExitCode.list [1, 2] }).1 =
      ExecResult.procError
        { exit_code := some 0, stdout := "pw ***", stderr := "warn",
          cmd := "true" } ∧
    execute ctxOk ["true"] { check_exit_code := CheckExitCode.int 0 } =
      (ExecResult.success "pw secret" "warn", [ExecEvent.spawn]) := by
  constructor
  · have h := (C3_exit_code_policy ctxOk ["true"]
      { check_exit_code := CheckExitCode.list [1, 2] } 0 "pw secret" "warn"
      rfl (Or.inl rfl) rfl rfl rfl).2.2.2 (by decide)
    exact h.trans (by decide)
  · have h := (C3_exit_code_policy ctxOk ["true"]
      { check_exit_code := CheckExitCode.int 0 } 0 "pw secret" "warn"
      rfl (Or.inl rfl) rfl rfl rfl).2.2.1 (by decide)
    exact h.trans (by decide)

/-- Claim C4: an unrecognized keyword argument makes execute raise
UnknownArgumentError and (with no unknown keyword) an invalid log_errors
value makes it raise InvalidArgumentError; in both cases the event trace is
empty — nothing is spawned and nothing retried, whatever the attempts
option says. -/
theorem C4_arg_validation (ctx : ExecCtx) (cmd : List String)
    (opts : ExecOptions) :
    (opts.extra_kwargs ≠ [] →
      execute ctx cmd opts = (ExecResult.unknownArg, [])) ∧
    (opts.extra_kwargs = [] → ¬validLog opts.log_errors →
      execute ctx cmd opts = (ExecResult.invalidArg, [])) := by
  constructor
  · intro h
    unfold execute
    simp [h]
  · intro h hl
    unfold execute
    simp [h, hl]

/-- Claim C4 witness: a bogus keyword and a bogus log_errors value each fail
with an empty trace even though attempts=3. -/
theorem C4_arg_validation_witness :
    execute ctxOk ["x"] { attempts := 3, extra_kwargs := ["bogus"] } =
      (ExecResult.unknownArg, []) ∧
    execute ctxOk ["x"] { attempts := 3, log_errors := some 7 } =
      (ExecResult.invalidArg, []) :=
  ⟨(C4_arg_validation ctxOk ["x"]
      { attempts := 3, extra_kwargs := ["bogus"] }).1 (by decide),
   (C4_arg_validation ctxOk ["x"]
      { attempts := 3, log_errors := some 7 }).2 rfl (by decide)⟩

/-- Claim C5: with run_as_root requested while the effective user is not
root: an empty root_helper makes execute fail with NoRootWrapSpecified
before any spawn (empty trace); with shell=true the helper is space-joined
onto the front of the first command argument, the rest of the vector
unchanged; with shell=false the helper is shell-tokenized into separate
tokens prepended to the command's argument vector. -/
theorem C5_root_helper (ctx : ExecCtx) (opts : ExecOptions)
    (hroot : opts.run_as_root = true) (heuid : ctx.euid ≠ 0) :
    (∀ cmd, opts.extra_kwargs = [] → validLog opts.log_errors →
      opts.root_helper = "" →
      execute ctx cmd opts = (ExecResult.noRootWrap, [])) ∧
    (∀ c0 rest, opts.root_helper ≠ "" → opts.shell = true →
      rootWrap ctx opts (c0 :: rest) =
        Except.ok ((opts.root_helper ++ " " ++ c0) :: rest)) ∧
    (∀ cmd, opts.root_helper ≠ "" → opts.shell = false →
      rootWrap ctx opts cmd =
        Except.ok (ctx.shlex_split opts.root_helper ++ cmd)) := by
  refine ⟨?_, ?_, ?_⟩
  · intro cmd hkw hlog hh
    unfold execute rootWrap
    simp [hkw, hlog, hroot, heuid, hh]
  · intro c0 rest hh hs
    unfold rootWrap
    simp [hroot, heuid, hh, hs]
  · intro cmd hh hs
    unfold rootWrap
    simp [hroot, heuid, hh, hs]

/-- Claim C5 witness: the three root-wrapping behaviors at concrete inputs
(effective uid 1000). -/
theorem C5_root_helper_witness :
    execute ctxOk ["mount"] { run_as_root := true } =
      (ExecResult.noRootWrap, []) ∧
    rootWrap ctxOk { run_as_root := true, root_helper := "sudo x", shell := true }
        ["mount", "-a"] =
      Except.ok ["sudo x mount", "-a"] ∧
    rootWrap ctxOk { run_as_root := true, root_helper := "sudo" }
        ["mount"] =
      Except.ok (ctxOk.shlex_split "sudo" ++ ["mount"]) := by
  refine ⟨?_, ?_, ?_⟩
  · exact (C5_root_helper ctxOk { run_as_root := true } rfl
      (by decide)).1 ["mount"] rfl (Or.inl rfl) rfl
  · have h := (C5_root_helper ctxOk
      { run_as_root := true, root_helper := "sudo x", shell := true }
      rfl (by decide)).2.1 "mount" ["-a"] (by decide) rfl
    exact h.trans (by decide)
  · exact (C5_root_helper ctxOk
      { run_as_root := true, root_helper := "sudo" } rfl
      (by decide)).2.2 ["mount"] (by decide) rfl

/-- Claim C6: with attempts=n (n ≥ 1), if every attempt fails (exit code
outside the accepted set, or an OS spawn failure) the loop spawns exactly n
times and then the last attempt's failure propagates (carrying that
attempt's exit code when it completed); if some attempt is the first to
succeed, no further attempt is made and that attempt's result is
returned. -/
theorem C6_retry_attempts (ctx : ExecCtx) (cmd : List String)
    (opts : ExecOptions) (n : Nat)
    (hkw : opts.extra_kwargs = []) (hlog : validLog opts.log_errors)
    (hroot : opts.run_as_root = false)
    (hatt : opts.attempts = n) (hn : 1 ≤ n) :
    ((∀ i, i < n →
        attemptFails (loopParamsOf ctx cmd opts) (ctx.world i) = true) →
      (execute ctx cmd opts).1 =
        failResult (loopParamsOf ctx cmd opts) ctx (ctx.world (n - 1)) ∧
      spawnCount (execute ctx cmd opts).2 = n) ∧
    (∀ s rc out err, s < n →
      (∀ i, i < s →
        attemptFails (loopParamsOf ctx cmd opts) (ctx.world i) = true) →
      ctx.world s = AttemptResult.ok rc out err →
      attemptFails (loopParamsOf ctx cmd opts) (ctx.world s) = false →
      (execute ctx cmd opts).1 =
        okResult (loopParamsOf ctx cmd opts) ctx out err ∧
      spawnCount (execute ctx cmd opts).2 = s + 1) := by
  have hv := execute_valid ctx cmd opts hkw hlog hroot
  rw [hv, hatt]
  constructor
  · intro hf
    exact executeLoop_all_fail _ ctx n hn hf
  · intro s rc out err hs hf hw hpass
    have hskip := executeLoop_skip_fail (loopParamsOf ctx cmd opts) ctx s n 0
      hs (fun i hi => by simpa using hf i hi)
    obtain ⟨b, hb⟩ : ∃ b, n - s = b + 1 := ⟨n - s - 1, by omega⟩
    have hzs : (0 : Nat) + s = s := by omega
    rw [hb, hzs] at hskip
    have hp := executeLoop_pass (loopParamsOf ctx cmd opts) ctx b s
      rc out err hw hpass
    rw [hp] at hskip
    refine ⟨hskip.1, ?_⟩
    rw [hskip.2.1]
    simp [spawnCount]

/-- Claim C6 witness: a command failing on each of its 3 attempts is spawned
exactly 3 times and the propagated error carries the last attempt's exit
code. -/
theorem C6_retry_attempts_witness :
    (execute ctxFail ["c"] { attempts := 3 }).1 =
      ExecResult.procError
        { exit_code := some 1, stdout := "pw ***", stderr := "e",
          cmd := "c" } ∧
    spawnCount (execute ctxFail ["c"] { attempts := 3 }).2 = 3 := by
  have h := (C6_retry_attempts ctxFail ["c"] { attempts := 3 } 3
    rfl (Or.inl rfl) rfl rfl (by decide)).1 (by decide)
  exact ⟨h.1.trans (by decide), h.2⟩

/-- Claim C7: with a completed attempt, the successful return value is the
raw output (raw bytes when binary, a never-failing locale decode otherwise)
with no password masking, while an exit-code failure raises a
ProcessExecutionError whose stdout/stderr are masked and whose command line
is sanitized — so the same token can appear unmasked in a successful return
and masked in the raised error. -/
theorem C7_mask_asymmetry (ctx : ExecCtx) (cmd : List String)
    (opts : ExecOptions) (rc : Int) (out err : String)
    (hkw : opts.extra_kwargs = []) (hlog : validLog opts.log_errors)
    (hroot : opts.run_as_root = false) (hatt : opts.attempts = 1)
    (hw : ctx.world 0 = AttemptResult.ok rc out err) :
    (attemptFails (loopParamsOf ctx cmd opts) (ctx.world 0) = false →
      (opts.binary = false →
        execute ctx cmd opts =
          (ExecResult.success (ctx.fsdecode out) (ctx.fsdecode err),
           [ExecEvent.spawn])) ∧
      (opts.binary = true →
        execute ctx cmd opts =
          (ExecResult.success out err, [ExecEvent.spawn]))) ∧
    (attemptFails (loopParamsOf ctx cmd opts) (ctx.world 0) = true →
      (execute ctx cmd opts).1 = ExecResult.procError
        { exit_code := some rc,
          stdout := ctx.mask (ctx.fsdecode out),
          stderr := ctx.mask (ctx.fsdecode err),
          cmd := ctx.mask (String.intercalate " " cmd) }) := by
  have hv := execute_valid ctx cmd opts hkw hlog hroot
  rw [hv, hatt]
  constructor
  · intro hpass
    have hp := executeLoop_pass (loopParamsOf ctx cmd opts) ctx 0 0
      rc out err hw hpass
    constructor
    · intro hb
      rw [hp]
      simp [okResult, loopParamsOf, hb]
    · intro hb
      rw [hp]
      simp [okResult, loopParamsOf, hb]
  · intro hfail
    have hlast := executeLoop_fail_last (loopParamsOf ctx cmd opts) ctx 0 hfail
    rw [hlast, hw]
    simp [failResult, loopParamsOf]

/-- Claim C7 witness: the same password-carrying stdout is returned unmasked
on success (exit 0) and attached masked to the error on failure (exit 1). -/
theorem C7_mask_asymmetry_witness :
    execute ctxOk ["x"] {} =
      (ExecResult.success "pw secret" "warn", [ExecEvent.spawn]) ∧
    (execute ctxFail ["x"] {}).1 =
      ExecResult.procError
        { exit_code := some 1, stdout := "pw ***", stderr := "e",
          cmd := "x" } := by
  constructor
  · have h := ((C7_mask_asymmetry ctxOk ["x"] {} 0 "pw secret" "warn"
      rfl (Or.inl rfl) rfl rfl rfl).1 (by decide)).1 rfl
    exact h.trans (by decide)
  · have h := (C7_mask_asymmetry ctxFail ["x"] {} 1 "pw secret" "e"
      rfl (Or.inl rfl) rfl rfl rfl).2 (by decide)
    exact h.trans (by decide)

/-- Claim C8: trycmd turns an execution failure of execute into the pair
("", str(exn)) instead of raising; on success it returns (out, "") when
discard_warnings is set and stderr is non-empty, and the pair unchanged
otherwise. -/
theorem C8_trycmd_behavior (ctx : ExecCtx) (cmd : List String)
    (opts : ExecOptions) (discard_warnings : Bool) :
    (∀ pe, (execute ctx cmd opts).1 = ExecResult.procError pe →
      trycmd ctx cmd opts discard_warnings = Except.ok ("", pe.message)) ∧
    (∀ out err, (execute ctx cmd opts).1 = ExecResult.success out err →
      trycmd ctx cmd opts discard_warnings =
        Except.ok
          (if discard_warnings ∧ err ≠ "" then (out, "") else (out, err))) := by
  constructor
  · intro pe h
    unfold trycmd
    rw [h]
  · intro out err h
    unfold trycmd
    rw [h]
    by_cases hc : discard_warnings ∧ err ≠ "" <;> simp [hc]

/-- Claim C8 witness: a failing command yields ("", error text); a command
succeeding with non-empty stderr yields (stdout, "") with discard_warnings
and (stdout, stderr) without. -/
theorem C8_trycmd_behavior_witness :
    trycmd ctxFail ["c"] {} true =
      Except.ok ("", "Unexpected error while running command." ++
        "\nCommand: c\nExit code: 1\nStdout: 'pw ***'\nStderr: 'e'") ∧
    trycmd ctxOk ["c"] {} true = Except.ok ("pw secret", "") ∧
    trycmd ctxOk ["c"] {} false = Except.ok ("pw secret", "warn") := by
  refine ⟨?_, ?_, ?_⟩
  · have h := (C8_trycmd_behavior ctxFail ["c"] {} true).1
      { exit_code := some 1, stdout := "pw ***", stderr := "e", cmd := "c" }
      (by decide)
    exact h.trans (by decide)
  · have h := (C8_trycmd_behavior ctxOk ["c"] {} true).2
      "pw secret" "warn" (by decide)
    exact h.trans (by decide)
  · have h := (C8_trycmd_behavior ctxOk ["c"] {} false).2
      "pw secret" "warn" (by decide)
    exact h.trans (by decide)

/-- Claim C10: the retry loop catches only ProcessExecutionError and
OSError; an exception of any other kind raised during attempt k (for
example by the on_execute or on_completion callback) propagates immediately,
is never retried even with attempts remaining (exactly k+1 spawns happen),
and is not logged under the log_errors policy (only the k caught failures
before it are, and only under LOG_ALL_ERRORS). -/
theorem C10_noncaught_exception (ctx : ExecCtx) (cmd : List String)
    (opts : ExecOptions) (n k : Nat)
    (hkw : opts.extra_kwargs = []) (hlog : validLog opts.log_errors)
    (hroot : opts.run_as_root = false)
    (hatt : opts.attempts = n) (hk : k < n)
    (hf : ∀ i, i < k →
      attemptFails (loopParamsOf ctx cmd opts) (ctx.world i) = true)
    (hw : ctx.world k = AttemptResult.otherError) :
    (execute ctx cmd opts).1 = ExecResult.otherError ∧
    spawnCount (execute ctx cmd opts).2 = k + 1 ∧
    logErrCount (execute ctx cmd opts).2 =
      (if opts.log_errors = some LOG_ALL_ERRORS then k else 0) := by
  have hv := execute_valid ctx cmd opts hkw hlog hroot
  rw [hv, hatt]
  have hskip := executeLoop_skip_fail (loopParamsOf ctx cmd opts) ctx k n 0
    hk (fun i hi => by simpa using hf i hi)
  obtain ⟨b, hb⟩ : ∃ b, n - k = b + 1 := ⟨n - k - 1, by omega⟩
  have hzs : (0 : Nat) + k = k := by omega
  rw [hb, hzs] at hskip
  have ho := executeLoop_other (loopParamsOf ctx cmd opts) ctx b k hw
  rw [ho] at hskip
  refine ⟨hskip.1, ?_, ?_⟩
  · rw [hskip.2.1]
    simp [spawnCount]
  · rw [hskip.2.2]
    simp [logErrCount, loopParamsOf]

/-- Claim C10 witness: first attempt fails (exit 1, logged under
LOG_ALL_ERRORS), second raises a non-caught exception: the call propagates
it at once with 2 spawns and 1 logged error despite attempts=3. -/
theorem C10_noncaught_exception_witness :
    (execute ctxCallback ["c"] { attempts := 3, log_errors := some 1 }).1 =
      ExecResult.otherError ∧
    spawnCount
      (execute ctxCallback ["c"] { attempts := 3, log_errors := some 1 }).2 = 2 ∧
    logErrCount
      (execute ctxCallback ["c"] { attempts := 3, log_errors := some 1 }).2 = 1 := by
  have h := C10_noncaught_exception ctxCallback ["c"]
    { attempts := 3, log_errors := some 1 } 3 1
    rfl (by decide) rfl rfl (by decide) (by decide) (by decide)
  exact ⟨h.1, h.2.1, h.2.2.trans (by decide)⟩

end OsloConcurrency
